import Mathlib

/-!
Verification development for the cookie-consent resolution engine of the
Automated-Web-Tracking-Detection-and-Privacy-Compliance-Analyzer repository.

The engine lives in `crawler_src/cookie_consent_handler.py` (class
`CookieConsentHandler` plus the module-level detectors) and
`crawler_src/utils.py` / `crawler_src/runs.py`.  Texts handled by the crawler
are modelled as `List Char`; Python's fractional button scores
(0, 1, 2, 2.5, 3, 3.5) are stored doubled (0, 2, 4, 5, 6, 7) so that they live
in `Nat`, and `score_as_rat` recovers the source's units.  Fallible browser
interactions (visibility checks, text extraction, clicks, element
enumeration) are modelled as `Except InteractionErr` values supplied by a
world structure; the embedded control flow reproduces exactly the
`try`/`except` structure of the source.
-/

/-- Python `str.lower()` on the texts the crawler handles (ASCII case folding,
matching `Char.toLower`). -/
def lowerTxt (t : List Char) : List Char := t.map Char.toLower

/-- Python `str.strip()`: drop whitespace from both ends. -/
def trimTxt (t : List Char) : List Char :=
  ((t.dropWhile Char.isWhitespace).reverse.dropWhile Char.isWhitespace).reverse

/-- `text.strip().lower()`, the normalisation performed at the top of
`CookieConsentHandler._score_button_text`. -/
def normalizeTxt (t : List Char) : List Char := lowerTxt (trimTxt t)

/-- Embedding of `CookieConsentHandler._is_valid_button_text`
(`cookie_consent_handler.py` lines 46-52): empty text or trimmed length < 2
or fewer than 2 alphabetic characters is invalid. -/
def is_valid_button_text (t : List Char) : Bool :=
  if t.isEmpty || (trimTxt t).length < 2 then false
  else if (t.filter Char.isAlpha).length < 2 then false
  else true

/-- Substring containment (Python's `needle in haystack`). -/
def containsSub (t p : List Char) : Bool :=
  (List.range (t.length + 1)).any fun i => p.isPrefixOf (t.drop i)

/-- A regex word character (`\w`): alphanumeric or underscore. -/
def isWordChar (c : Char) : Bool := c.isAlphanum || c == '_'

/-- Whether the character at offset `i` of `t` is a word character
(out-of-range counts as non-word, as at the ends of the string). -/
def wordAt (t : List Char) (i : Nat) : Bool :=
  match t.drop i with
  | [] => false
  | c :: _ => isWordChar c

/-- Whether offset `i` (between 0 and `t.length`) is a `\b` word boundary:
exactly one side is a word character. -/
def wordBoundary (t : List Char) (i : Nat) : Bool :=
  (if i == 0 then false else wordAt t (i - 1)) != wordAt t i

/-- A whole-word occurrence of keyword `k` at offset `i` of `t`: one
alternative of the compiled `\b(kw1|...|kwn)\b` pattern matching there. -/
def kwMatchAt (t k : List Char) (i : Nat) : Bool :=
  wordBoundary t i && wordBoundary t (i + k.length) && k.isPrefixOf (t.drop i)

/-- Truthiness of `pattern.search(text)` for the handler's whole-word,
case-insensitive keyword pattern (`re.compile(r'\b(...)\b', re.IGNORECASE)`,
`cookie_consent_handler.py` lines 33-36): some keyword occurs somewhere in
`t` flanked by word boundaries.  Keywords and text are both already
lowercased, which renders the `IGNORECASE` flag. -/
def patternSearch (kws : List (List Char)) (t : List Char) : Bool :=
  kws.any fun k => (List.range (t.length + 1)).any fun i => kwMatchAt t k i

/-- Embedding of `CookieConsentHandler._score_button_text`
(`cookie_consent_handler.py` lines 54-98).  `kws` is the lowercased keyword
vocabulary (the handler's `keywords_set`, which also generates its
whole-word pattern).  The source's fractional scores are stored doubled:
3.5 ↦ 7, 3 ↦ 6, 2.5 ↦ 5, 2 ↦ 4, 1 ↦ 2, 0 ↦ 0; `score_as_rat` recovers the
source units. -/
def score_button_text (kws : List (List Char)) (t : List Char) : Nat :=
  let n := normalizeTxt t
  if kws.isEmpty then 0
  else if containsSub n "reject all purposes".data || containsSub n "reject all purpose".data then 7
  else if kws.contains n && n.length < 10 then 6
  else if kws.contains n then 5
  else if patternSearch kws n then
    if n.length < 15 then 4 else 2
  else 0

/-- The scorer's value in the source's own units. -/
def score_as_rat (kws : List (List Char)) (t : List Char) : ℚ :=
  (score_button_text kws t : ℚ) / 2

/-- The scoring rules exactly as the specification states them (first match
wins): the "reject all purpose(s)" phrase scores 3.5, an exact keyword match
scores 3 (length < 10) or 2.5, a whole-word regex match scores 2
(length < 15) or 1, otherwise 0. -/
def claimScore (kws : List (List Char)) (t : List Char) : ℚ :=
  let n := normalizeTxt t
  if containsSub n "reject all purposes".data || containsSub n "reject all purpose".data then 3.5
  else if kws.contains n && n.length < 10 then 3
  else if kws.contains n then 2.5
  else if patternSearch kws n && n.length < 15 then 2
  else if patternSearch kws n then 1
  else 0

/-- The two crawl modes of the handler. -/
inductive Mode
  | accept
  | reject
deriving DecidableEq, Repr

/-- The state built by `CookieConsentHandler.__init__`: the mode and the
lowercased keyword vocabulary (`keywords_set`, which also generates the
whole-word `partial match pattern` — in this model the pattern is always
derived from `keywords_set` by `patternSearch`, exactly as the source builds
both from the same argument list). -/
structure CookieConsentHandler where
  mode : Mode
  keywords_set : List (List Char)
deriving DecidableEq, Repr

/-- Embedding of `CookieConsentHandler.__init__` (`cookie_consent_handler.py`
lines 23-44).  `.error ()` models the `ValueError` raised when
`(accept_keywords is None) == (reject_keywords is None)`; otherwise the mode
is fixed by which argument was provided and the vocabulary is lowercased. -/
def handler_init (accept_keywords reject_keywords : Option (List (List Char))) :
    Except Unit CookieConsentHandler :=
  match accept_keywords, reject_keywords with
  | none, none => .error ()
  | some _, some _ => .error ()
  | some ks, none => .ok ⟨Mode.accept, ks.map lowerTxt⟩
  | none, some ks => .ok ⟨Mode.reject, ks.map lowerTxt⟩

/-- The failure classes of a single browser interaction that the source
handles: a bounded-time query exceeding its timeout, a stale/inaccessible
element, a torn-down frame. -/
inductive InteractionErr
  | timeout
  | stale
  | frameGone
deriving DecidableEq, Repr

deriving instance DecidableEq for Except

/-- The observable behaviour of one element handle (one button / locator
`.first`): visibility check, `inner_text`, and `click`, each of which may
fail.  `id` is the opaque handle identity used to record which element a
click was attempted on. -/
structure Btn where
  id : Nat
  visibleR : Except InteractionErr Bool
  textR : Except InteractionErr (List Char)
  clickR : Except InteractionErr Unit
deriving DecidableEq, Repr

/-- A click attempt recorded by the embedded flows, tagged with the strategy
that performed it. -/
inductive ClickEv
  | known (selector : String)
  | heuristic (id : Nat)
  | settings (id : Nat)
  | rejectInDialog (id : Nat)
  | save (id : Nat)
deriving DecidableEq, Repr

/-- One document context for the candidate survey: the result of
`context.locator("button, a[role='button'], ...").all()`. -/
structure Ctx where
  allR : Except InteractionErr (List Btn)
deriving DecidableEq, Repr

/-- The vendor-specific known-selector table of
`CookieConsentHandler._try_common_selectors` for the given mode
(`cookie_consent_handler.py` lines 137-174). -/
def commonSelectors : Mode → List String
  | Mode.accept =>
    [ "#onetrust-accept-btn-handler", "button#onetrust-accept-btn-handler"
    , "#CybotCookiebotDialogBodyLevelButtonLevelOptinAllowAll"
    , "a#CybotCookiebotDialogBodyLevelButtonLevelOptinAllowAll"
    , "#cookie-information-template-wrapper button.cookie-information-accept-all"
    , "#termly-code-snippet-support button[data-tid=\x27banner-accept\x27]"
    , "#didomi-notice-agree-button", "button#didomi-notice-agree-button"
    , ".osano-cm-accept-all", "button.osano-cm-accept-all"
    , "#truste-consent-button"
    , "button[data-testid=\x27qc-cmp2-ui-button\x27][mode=\x27primary\x27]" ]
  | Mode.reject =>
    [ "#onetrust-reject-all-handler", "button#onetrust-reject-all-handler"
    , "#CybotCookiebotDialogBodyLevelButtonLevelOptinDeclineAll"
    , "a#CybotCookiebotDialogBodyLevelButtonLevelOptinDeclineAll"
    , "#cookie-information-template-wrapper button.cookie-information-decline-all"
    , "#termly-code-snippet-support button[data-tid=\x27banner-reject\x27]"
    , "#didomi-notice-reject-button", "button#didomi-notice-reject-button"
    , ".osano-cm-deny-all", "button.osano-cm-deny-all"
    , "#truste-consent-reject"
    , "button[data-testid=\x27qc-cmp2-ui-button\x27][mode=\x27secondary\x27]" ]

/-- Embedding of the selector loop of
`CookieConsentHandler._try_common_selectors` (lines 176-189): for each
selector in order, if the element is visible and its text can be read, click
it; a successful click terminates with `true`, and any failure (invisible,
visibility/text error, failed click) moves on to the next selector.  Every
attempted click is recorded. -/
def try_common_selectors (sel : String → Btn) : List String → Bool × List ClickEv
  | [] => (false, [])
  | s :: rest =>
    match (sel s).visibleR, (sel s).textR with
    | .ok true, .ok _ =>
      (match (sel s).clickR with
       | .ok _ => (true, [ClickEv.known s])
       | .error _ =>
          let r := try_common_selectors sel rest
          (r.1, ClickEv.known s :: r.2))
    | _, _ => try_common_selectors sel rest

/-- A scored button candidate (`(score, button, text)` in the source); the
score is stored doubled (see `score_button_text`). -/
structure Candidate where
  score : Nat
  btn : Btn
  text : List Char
deriving DecidableEq, Repr

/-- The per-button body of `CookieConsentHandler._find_and_score_buttons`
(lines 112-128): visibility check, `inner_text().strip()`, validity filter,
scoring, keep when the score is positive; any per-element failure is
swallowed (`except Exception: continue`) and yields `none`. -/
def surveyButton (kws : List (List Char)) (b : Btn) : Option Candidate :=
  match b.visibleR, b.textR with
  | .ok true, .ok t =>
    let s := trimTxt t
    if is_valid_button_text s then
      let sc := score_button_text kws s
      if 0 < sc then some ⟨sc, b, s⟩ else none
    else none
  | _, _ => none

/-- Embedding of `CookieConsentHandler._find_and_score_buttons`
(lines 100-129): a timeout of the element enumeration yields no candidates
(`except PlaywrightTimeoutError: return []`); any other enumeration failure
propagates to the caller. -/
def find_and_score_buttons (kws : List (List Char)) (c : Ctx) :
    Except InteractionErr (List Candidate) :=
  match c.allR with
  | .error .timeout => .ok []
  | .error e => .error e
  | .ok bs => .ok (bs.filterMap (surveyButton kws))

/-- The frame loop of the heuristic search (`accept_cookies` lines 415-421,
`reject_cookies` lines 766-772): frames are surveyed in order inside one
`try` block, so a failing frame survey aborts the loop but keeps the
candidates collected so far. -/
def surveyFramesGo (kws : List (List Char)) (acc : List Candidate) :
    List Ctx → List Candidate
  | [] => acc
  | c :: rest =>
    match find_and_score_buttons kws c with
    | .error _ => acc
    | .ok cs => surveyFramesGo kws (acc ++ cs) rest

/-- All candidates contributed by the frames; a failure to list the frames
(`page.frames` raising) is caught and contributes nothing. -/
def surveyFrames (kws : List (List Char))
    (framesR : Except InteractionErr (List Ctx)) : List Candidate :=
  match framesR with
  | .error _ => []
  | .ok fs => surveyFramesGo kws [] fs

/-- The heuristic search's candidate collection: the main document is
surveyed first (unprotected except for the timeout case), then every frame
in order. -/
def collectCandidates (kws : List (List Char)) (main : Ctx)
    (framesR : Except InteractionErr (List Ctx)) :
    Except InteractionErr (List Candidate) :=
  match find_and_score_buttons kws main with
  | .error e => .error e
  | .ok mc => .ok (mc ++ surveyFrames kws framesR)

/-- Inserts `x` after every already-placed element whose score is ≥ `x`'s.
Together with `sortByScoreDesc` this renders Python's
`list.sort(key=lambda x: x[0], reverse=True)`: a stable descending sort. -/
def insertDesc (sc : α → Nat) (x : α) : List α → List α
  | [] => [x]
  | y :: ys => if sc x ≤ sc y then y :: insertDesc sc x ys else x :: y :: ys

/-- Stable descending sort by score (Python's stable `list.sort` with
`key=lambda x: x[0], reverse=True`). -/
def sortByScoreDesc (sc : α → Nat) (l : List α) : List α :=
  l.foldl (fun acc x => insertDesc sc x acc) []

/-- The world an `accept_cookies` / heuristic-search pass runs against:
per-selector element behaviour, the main document, and the frame list. -/
structure PageWorld where
  sel : String → Btn
  main : Ctx
  framesR : Except InteractionErr (List Ctx)

/-- Embedding of `CookieConsentHandler.accept_cookies` (lines 401-443):
known selectors first; on failure collect and rank candidates from the main
page and the frames, click the top candidate; no candidates or a failed
click yields `false`.  The first component is the returned boolean, or
`.error` for an exception escaping the method. -/
def accept_cookies (h : CookieConsentHandler) (w : PageWorld) :
    Except InteractionErr Bool × List ClickEv :=
  let tc := try_common_selectors w.sel (commonSelectors h.mode)
  if tc.1 then (.ok true, tc.2)
  else
    match collectCandidates h.keywords_set w.main w.framesR with
    | .error e => (.error e, tc.2)
    | .ok cands =>
      match sortByScoreDesc Candidate.score cands with
      | [] => (.ok false, tc.2)
      | best :: _ =>
        match best.btn.clickR with
        | .ok _ => (.ok true, tc.2 ++ [ClickEv.heuristic best.btn.id])
        | .error _ => (.ok false, tc.2 ++ [ClickEv.heuristic best.btn.id])

/-- One JS-snapshot entry from the bulk `context.evaluate` used by
`_find_reject_in_settings` / `_find_save_button`: `innerText` (already
trimmed by the page script) and computed visibility. -/
structure JsBtn where
  text : List Char
  visible : Bool
deriving DecidableEq, Repr

/-- One document context for the settings-dialog lookups: element
enumeration (also used to resolve a snapshot index back to a live handle),
the accessible-role lookup `get_by_role("button", name=keyword,
exact=False)`, and the bulk JS text/visibility snapshot. -/
structure RoleCtx where
  allR : Except InteractionErr (List Btn)
  roleBtn : List Char → Btn
  evalR : Except InteractionErr (List JsBtn)

/-- Embedding of `CookieConsentHandler._find_settings_button`
(lines 445-477): scan the enumerated controls in order and return the first
visible one whose stripped, lowercased text is valid and matches a setting
keyword exactly or as a whole word; per-element failures skip the element;
an enumeration timeout yields `none`, any other enumeration failure
propagates. -/
def find_settings_button (setting_kws : List (List Char)) (c : Ctx) :
    Except InteractionErr (Option Btn) :=
  match c.allR with
  | .error .timeout => .ok none
  | .error e => .error e
  | .ok bs => .ok (bs.findSome? fun b =>
      match b.visibleR, b.textR with
      | .ok true, .ok t =>
        let s := lowerTxt (trimTxt t)
        if is_valid_button_text s then
          if (setting_kws.map lowerTxt).contains s || patternSearch (setting_kws.map lowerTxt) s
          then some b else none
        else none
      | _, _ => none)

/-- Embedding of `CookieConsentHandler._find_reject_in_settings`
(lines 479-551).  Phase 1 walks the handler's reject keywords through
`get_by_role`, accepting the first visible hit with non-empty text scoring
≥ 2.5 (stored 5); any failure moves to the next keyword.  Phase 2 falls back
to the bulk JS snapshot: visible entries with non-empty, valid text and
score > 0 are ranked by the stable descending sort and the best index is
resolved against a fresh enumeration (`None` when the index is out of
range); any failure in this phase yields `none`. -/
def find_reject_in_settings (kws : List (List Char)) (c : RoleCtx) : Option Btn :=
  match kws.findSome? (fun kw =>
      match (c.roleBtn kw).visibleR, (c.roleBtn kw).textR with
      | .ok true, .ok t =>
        let s := trimTxt t
        if s.isEmpty then none
        else if 5 ≤ score_button_text kws s then some (c.roleBtn kw) else none
      | _, _ => none) with
  | some b => some b
  | none =>
    match c.evalR with
    | .error _ => none
    | .ok snap =>
      let cands := snap.enum.filterMap fun p =>
        if p.2.visible then
          if p.2.text.isEmpty then none
          else if is_valid_button_text p.2.text then
            let sc := score_button_text kws p.2.text
            if 0 < sc then some (sc, p.1, p.2.text) else none
          else none
        else none
      match sortByScoreDesc (fun x => x.1) cands with
      | [] => none
      | (_, i, _) :: _ =>
        match c.allR with
        | .error _ => none
        | .ok bs => bs[i]?

/-- Embedding of `CookieConsentHandler._find_save_button` (lines 553-633):
the same two-tier lookup as `find_reject_in_settings`, but over the save
vocabulary and keeping only scores ≥ 2.5 (stored 5) in the snapshot phase
as well. -/
def find_save_button (save_kws : List (List Char)) (c : RoleCtx) : Option Btn :=
  match save_kws.findSome? (fun name =>
      match (c.roleBtn name).visibleR, (c.roleBtn name).textR with
      | .ok true, .ok t =>
        let s := trimTxt t
        if s.isEmpty then none
        else if 5 ≤ score_button_text (save_kws.map lowerTxt) s then some (c.roleBtn name)
        else none
      | _, _ => none) with
  | some b => some b
  | none =>
    match c.evalR with
    | .error _ => none
    | .ok snap =>
      let cands := snap.enum.filterMap fun p =>
        if p.2.visible then
          if p.2.text.isEmpty then none
          else if is_valid_button_text p.2.text then
            let sc := score_button_text (save_kws.map lowerTxt) p.2.text
            if 5 ≤ sc then some (sc, p.1, p.2.text) else none
          else none
        else none
      match sortByScoreDesc (fun x => x.1) cands with
      | [] => none
      | (_, i, _) :: _ =>
        match c.allR with
        | .error _ => none
        | .ok bs => bs[i]?

/-- The page as seen by step 1 of the multi-step flow (settings search):
main document and frames, surveyed through plain element enumeration. -/
structure Snap1 where
  main : Ctx
  framesR : Except InteractionErr (List Ctx)
deriving Repr

/-- The page as seen by steps 2 and 3 (after a click has changed it): main
document and frames with the dialog-lookup interface. -/
structure Snap2 where
  main : RoleCtx
  framesR : Except InteractionErr (List RoleCtx)

/-- The frame loop of step 1 (lines 648-656): an error raised while probing
a frame aborts the loop (caught by the surrounding `try`), leaving no
settings button. -/
def findSettingsFrames (kws : List (List Char)) : List Ctx → Option Btn
  | [] => none
  | c :: rest =>
    match find_settings_button kws c with
    | .error _ => none
    | .ok (some b) => some b
    | .ok none => findSettingsFrames kws rest

/-- Step 1's full search (lines 641-656): main document first, then each
frame; a failure to list the frames is caught and leaves `none`. -/
def findSettingsAll (kws : List (List Char)) (s : Snap1) :
    Except InteractionErr (Option Btn) :=
  match find_settings_button kws s.main with
  | .error e => .error e
  | .ok (some b) => .ok (some b)
  | .ok none =>
    match s.framesR with
    | .error _ => .ok none
    | .ok fs => .ok (findSettingsFrames kws fs)

/-- The frame loop of step 2 (lines 680-689); `find_reject_in_settings`
itself never raises. -/
def findRejectFrames (kws : List (List Char)) : List RoleCtx → Option Btn
  | [] => none
  | c :: rest =>
    match find_reject_in_settings kws c with
    | some b => some b
    | none => findRejectFrames kws rest

/-- Step 2's full search (lines 671-689): main document first, then each
frame. -/
def findRejectAll (kws : List (List Char)) (s : Snap2) : Option Btn :=
  match find_reject_in_settings kws s.main with
  | some b => some b
  | none =>
    match s.framesR with
    | .error _ => none
    | .ok fs => findRejectFrames kws fs

/-- The frame loop of step 3 (lines 719-726). -/
def findSaveFrames (kws : List (List Char)) : List RoleCtx → Option Btn
  | [] => none
  | c :: rest =>
    match find_save_button kws c with
    | some b => some b
    | none => findSaveFrames kws rest

/-- Step 3's full search (lines 707-730): frames are searched first (the
save control usually lives in the dialog frame), then the main document;
a failure to re-list the frames is caught (`except: frames = []`). -/
def findSaveAll (kws : List (List Char)) (s : Snap2) : Option Btn :=
  match (match s.framesR with
         | .error _ => none
         | .ok fs => findSaveFrames kws fs) with
  | some b => some b
  | none => find_save_button kws s.main

/-- The page snapshots the three steps of the multi-step flow observe: the
page before any click (`s1`), after the settings click (`s2`), and after
the reject click (`s3`). -/
structure MsWorld where
  s1 : Snap1
  s2 : Snap2
  s3 : Snap2

/-- Embedding of `CookieConsentHandler._try_multi_step_reject`
(lines 635-747): click a settings control, click a reject control in the
opened dialog, then click an optional save control.  Before each click the
source reads the control's text inside the same `try`, so a failed text
read abandons the step without a click; a failed click fails the step after
the attempt.  A missing save control still counts as success. -/
def try_multi_step_reject (h : CookieConsentHandler)
    (setting_kws save_kws : List (List Char)) (w : MsWorld) :
    Except InteractionErr Bool × List ClickEv :=
  match findSettingsAll setting_kws w.s1 with
  | .error e => (.error e, [])
  | .ok none => (.ok false, [])
  | .ok (some sb) =>
    match sb.textR with
    | .error _ => (.ok false, [])
    | .ok _ =>
      match sb.clickR with
      | .error _ => (.ok false, [ClickEv.settings sb.id])
      | .ok _ =>
        match findRejectAll h.keywords_set w.s2 with
        | none => (.ok false, [ClickEv.settings sb.id])
        | some rb =>
          match rb.textR with
          | .error _ => (.ok false, [ClickEv.settings sb.id])
          | .ok _ =>
            match rb.clickR with
            | .error _ =>
              (.ok false, [ClickEv.settings sb.id, ClickEv.rejectInDialog rb.id])
            | .ok _ =>
              match findSaveAll save_kws w.s3 with
              | none =>
                (.ok true, [ClickEv.settings sb.id, ClickEv.rejectInDialog rb.id])
              | some vb =>
                match vb.textR with
                | .error _ =>
                  (.ok false, [ClickEv.settings sb.id, ClickEv.rejectInDialog rb.id])
                | .ok _ =>
                  match vb.clickR with
                  | .ok _ =>
                    (.ok true, [ClickEv.settings sb.id, ClickEv.rejectInDialog rb.id,
                                ClickEv.save vb.id])
                  | .error _ =>
                    (.ok false, [ClickEv.settings sb.id, ClickEv.rejectInDialog rb.id,
                                 ClickEv.save vb.id])

/-- The world a `reject_cookies` pass runs against: the page for the direct
strategies plus the three multi-step snapshots. -/
structure RejectWorld where
  page : PageWorld
  ms : MsWorld

/-- Embedding of `CookieConsentHandler.reject_cookies` (lines 749-805):
strategy 1 is the direct keyword-based heuristic search (a successful click
returns immediately; a failed click falls through); strategy 2 is the
multi-step flow, guarded by `if setting_keywords and save_keywords:` (both
truthy, i.e. non-empty — the empty list models Python's `None` default,
both being falsy); strategy 3, last, probes the known reject selectors. -/
def reject_cookies (h : CookieConsentHandler)
    (setting_kws save_kws : List (List Char)) (w : RejectWorld) :
    Except InteractionErr Bool × List ClickEv :=
  match collectCandidates h.keywords_set w.page.main w.page.framesR with
  | .error e => (.error e, [])
  | .ok cands =>
    let after1 : List ClickEv × Bool :=
      match sortByScoreDesc Candidate.score cands with
      | [] => ([], false)
      | best :: _ =>
        match best.btn.clickR with
        | .ok _ => ([ClickEv.heuristic best.btn.id], true)
        | .error _ => ([ClickEv.heuristic best.btn.id], false)
    if after1.2 then (.ok true, after1.1)
    else if !setting_kws.isEmpty && !save_kws.isEmpty then
      match try_multi_step_reject h setting_kws save_kws w.ms with
      | (.error e, t2) => (.error e, after1.1 ++ t2)
      | (.ok true, t2) => (.ok true, after1.1 ++ t2)
      | (.ok false, t2) =>
        let tc := try_common_selectors w.page.sel (commonSelectors h.mode)
        (.ok tc.1, after1.1 ++ t2 ++ tc.2)
    else
      let tc := try_common_selectors w.page.sel (commonSelectors h.mode)
      (.ok tc.1, after1.1 ++ tc.2)

/-- The shortened accept-selector table probed by
`CookieConsentHandler._detect_accept_button` (lines 252-258). -/
def detectAcceptSelectors : List String :=
  [ "#onetrust-accept-btn-handler", "button#onetrust-accept-btn-handler"
  , "#CybotCookiebotDialogBodyLevelButtonLevelOptinAllowAll"
  , "#didomi-notice-agree-button", "button#didomi-notice-agree-button"
  , ".osano-cm-accept-all", "button.osano-cm-accept-all"
  , "#truste-consent-button" ]

/-- The per-context selector probe of `_detect_accept_button` (lines
260-266, 286-292): true as soon as some selector's first match is visible;
failures skip the selector. -/
def selectorProbe (sel : String → Btn) (sels : List String) : Bool :=
  sels.any fun s =>
    match (sel s).visibleR with
    | .ok true => true
    | _ => false

/-- The keyword scan of `_detect_accept_button` (lines 268-281, 294-306):
every visible enumerated button's `inner_text().strip().lower()` is scored
directly — with NO `_is_valid_button_text` check — and a positive score
answers `true`.  Failures (enumeration or per-element) are swallowed. -/
def detectKwScan (kws : List (List Char)) (c : Ctx) : Bool :=
  match c.allR with
  | .error _ => false
  | .ok bs => bs.any fun b =>
      match b.visibleR, b.textR with
      | .ok true, .ok t => 0 < score_button_text kws (lowerTxt (trimTxt t))
      | _, _ => false

/-- The texts on which `detectKwScan` invokes the scorer: every visible
button whose text could be read, with no validity filtering. -/
def detectKwScanScoredTexts (c : Ctx) : List (List Char) :=
  match c.allR with
  | .error _ => []
  | .ok bs => bs.filterMap fun b =>
      match b.visibleR, b.textR with
      | .ok true, .ok t => some (lowerTxt (trimTxt t))
      | _, _ => none

/-- A frame as seen by `_detect_accept_button`: selector probes plus the
element enumeration of the keyword scan. -/
structure DetectCtx where
  sel : String → Btn
  ctx : Ctx

/-- The world a `_detect_accept_button` pass runs against. -/
structure DetectWorld where
  sel : String → Btn
  main : Ctx
  framesR : Except InteractionErr (List DetectCtx)

/-- Embedding of `CookieConsentHandler._detect_accept_button`
(lines 243-310): a temporary accept-mode handler scores the texts; the main
document's selector probe and keyword scan run first, then each frame's.
A failure listing the frames is caught and detects nothing. -/
def detect_accept_button (accept_kws : List (List Char)) (w : DetectWorld) : Bool :=
  let kws := accept_kws.map lowerTxt
  selectorProbe w.sel detectAcceptSelectors
  || detectKwScan kws w.main
  || (match w.framesR with
      | .error _ => false
      | .ok fs => fs.any fun f =>
          selectorProbe f.sel detectAcceptSelectors || detectKwScan kws f.ctx)

/-- All texts on which `_detect_accept_button` invokes the scorer, across
the main document and the frames. -/
def detect_accept_scored_texts (w : DetectWorld) : List (List Char) :=
  detectKwScanScoredTexts w.main ++
  (match w.framesR with
   | .error _ => []
   | .ok fs => fs.flatMap fun f => detectKwScanScoredTexts f.ctx)

/-- The texts on which `_find_and_score_buttons` invokes the scorer
(line 122): exactly the visible buttons whose stripped text passed
`_is_valid_button_text` on line 119. -/
def surveyScoredTexts (bs : List Btn) : List (List Char) :=
  bs.filterMap fun b =>
    match b.visibleR, b.textR with
    | .ok true, .ok t =>
      let s := trimTxt t
      if is_valid_button_text s then some s else none
    | _, _ => none

/-- Accessible roles checked by `detect_subscribe_button`. -/
inductive AccRole
  | button
  | link
deriving DecidableEq, Repr

/-- One subscribe-style control on the page: its accessible role and name,
its visibility, and the consent-container selectors of the containers that
enclose it (empty = the control sits outside every consent container). -/
structure SubCtrl where
  role : AccRole
  name : List Char
  visible : Bool
  containers : List String
deriving DecidableEq, Repr

/-- One document context for `detect_subscribe_button`: which container
selectors have a visible first match, and the page's controls. -/
structure SubCtx where
  containerVisible : String → Bool
  controls : List SubCtrl

/-- The fixed multilingual subscribe vocabulary of
`detect_subscribe_button` (lines 840-843). -/
def subscribeKeywords : List (List Char) :=
  [ "subscribe".data, "s\x27abonner".data, "abonner".data, "abonnieren".data
  , "abbonati".data, "suscribirse".data, "inschrijven".data, "inscrever".data
  , "подписаться".data ]

/-- The consent-container selector table of `detect_subscribe_button`
(lines 846-862). -/
def consentContainerSelectors : List String :=
  [ "#onetrust-banner-sdk", "#onetrust-policy", "#onetrust-consent-sdk"
  , "#CybotCookiebotDialog", "#CookiebotDialog"
  , "#didomi-popup", "#didomi-notice"
  , ".osano-cm-dialog", ".osano-cm-info-dialog-open"
  , "#truste-consent-track"
  , "[data-testid=\x27qc-cmp2-ui\x27]"
  , "[id*=\x27cookie\x27]", "[class*=\x27cookie\x27]"
  , "[id*=\x27consent\x27]", "[class*=\x27consent\x27]"
  , "[id*=\x27gdpr\x27]", "[class*=\x27gdpr\x27]"
  , "[id*=\x27privacy\x27]", "[class*=\x27privacy\x27]" ]

/-- Whether `container.get_by_role(role, name=kw, exact=False)` matches
control `c` inside the container found by `contSel`: the control must lie
inside that container, carry the role, and its accessible name must contain
the keyword case-insensitively. -/
def roleNameMatches (c : SubCtrl) (contSel : String) (r : AccRole)
    (kw : List Char) : Bool :=
  c.containers.contains contSel && c.role == r
    && containsSub (lowerTxt c.name) (lowerTxt kw)

/-- The per-container body of `detect_subscribe_button` (lines 869-886):
for some subscribe keyword, the container's role lookup for a button or a
link has a match whose first element is visible. -/
def containerSubscribeHit (ctx : SubCtx) (contSel : String) : Bool :=
  subscribeKeywords.any fun kw =>
    (match ctx.controls.filter (fun c => roleNameMatches c contSel AccRole.button kw) with
     | [] => false
     | c :: _ => c.visible)
    ||
    (match ctx.controls.filter (fun c => roleNameMatches c contSel AccRole.link kw) with
     | [] => false
     | c :: _ => c.visible)

/-- Embedding of `detect_subscribe_button` (lines 834-921): only controls
inside a visible consent container count, first in the main document and
then in each frame; there is deliberately no broad fallback search. -/
def detect_subscribe_button (main : SubCtx) (frames : List SubCtx) : Bool :=
  (consentContainerSelectors.any fun s =>
     main.containerVisible s && containerSubscribeHit main s)
  || frames.any fun f =>
       consentContainerSelectors.any fun s =>
         f.containerVisible s && containerSubscribeHit f s

/-- Embedding of `get_keywords` (`crawler_src/utils.py` lines 57-67).  The
word file's contents are parameters: `accept_words` is the flat accept list
and `words` the per-language translation tables (association lists).  For
`"accept"` the source returns `list(set(...))` — the set's iteration order
is unspecified, rendered here by `dedup` over the insertion order; for every
other argument it returns the empty list. -/
def get_keywords (accept_words : List String)
    (words : List (List (String × String))) (keyword : String) : List String :=
  if keyword = "accept" then
    (accept_words ++ words.flatMap fun lang =>
       accept_words.filterMap fun w =>
         (lang.find? fun p => p.1 = w).map fun p => p.2).dedup
  else []

/-- The handler the reject crawl builds: `runs.py run_reject` loads
`reject_keywords = get_keywords("reject")` (line 224) and calls
`reject_cookies(page, reject_keywords, ...)` (line 313), which constructs
`CookieConsentHandler(reject_keywords=reject_keywords)`
(`cookie_consent_handler.py` lines 813-815). -/
def run_reject_handler (accept_words : List String)
    (words : List (List (String × String))) : Except Unit CookieConsentHandler :=
  handler_init none (some ((get_keywords accept_words words "reject").map String.data))

/-- Whether an element can have its text read and be clicked: the
interactions `_try_multi_step_reject` performs on a located control inside
one `try` block. -/
def interactOk (b : Btn) : Bool := b.textR.isOk && b.clickR.isOk

/-- "Normal operation" of a main-document element enumeration: if
`locator(...).all()` fails at all, it fails with a timeout — the only
failure class the source's `except PlaywrightTimeoutError` anticipates
there.  (Frame enumerations may fail arbitrarily; those loops are wrapped
in their own `try` blocks.) -/
def ctxTimeoutOnly (c : Ctx) : Prop :=
  ∀ e, c.allR = Except.error e → e = InteractionErr.timeout

/-- Strategy position of a click event inside `accept_cookies`:
known selectors run first (0), the heuristic click second (1). -/
def acceptStrategyRank : ClickEv → Nat
  | ClickEv.known _ => 0
  | _ => 1

/-- Strategy position of a click event inside `reject_cookies`: the
heuristic click runs first (0), the multi-step clicks second (1), the known
selectors last (2). -/
def rejectStrategyRank : ClickEv → Nat
  | ClickEv.heuristic _ => 0
  | ClickEv.settings _ => 1
  | ClickEv.rejectInDialog _ => 1
  | ClickEv.save _ => 1
  | ClickEv.known _ => 2

/-- A visible, readable, clickable element with handle identity `i` and
inner text `t` (used for the concrete instances below). -/
def btnV (i : Nat) (t : String) : Btn := ⟨i, .ok true, .ok t.data, .ok ()⟩

/-- An element that reports itself invisible. -/
def btnHidden : Btn := ⟨0, .ok false, .ok [], .ok ()⟩

/-- A selector map with no visible matches. -/
def selNone : String → Btn := fun _ => btnHidden

/-- An empty settings-dialog context. -/
def rctx0 : RoleCtx := ⟨.ok [], fun _ => btnHidden, .ok []⟩

/-- An empty step-2/step-3 snapshot. -/
def snap20 : Snap2 := ⟨rctx0, .ok []⟩

/-- A multi-step world in which nothing is found. -/
def msW0 : MsWorld := ⟨⟨⟨Except.ok []⟩, .ok []⟩, snap20, snap20⟩

/-- An empty page. -/
def pageW0 : PageWorld := ⟨selNone, ⟨.ok []⟩, .ok []⟩

/-- An empty reject world. -/
def rejectW0 : RejectWorld := ⟨pageW0, msW0⟩

/-- A reject-mode handler whose vocabulary is `["reject all"]`. -/
def hRejAll : CookieConsentHandler := ⟨Mode.reject, ["reject all".data]⟩

/-- A reject-crawl page on which the OneTrust reject known selector is
visible and clickable AND the heuristic survey finds a matching button:
the world of the C2 counterexample. -/
def wC2 : RejectWorld :=
  { page := { sel := fun s => if s = "#onetrust-reject-all-handler" then btnV 9 "Reject all" else btnHidden
            , main := ⟨.ok [btnV 5 "Reject all"]⟩
            , framesR := .ok [] }
  , ms := msW0 }

/-- An accept-mode handler with vocabulary `["accept"]`. -/
def hAcc : CookieConsentHandler := ⟨Mode.accept, ["accept".data]⟩

/-- An accept-crawl page on which the OneTrust accept known selector is
visible and clickable. -/
def wAccSel : PageWorld :=
  { sel := fun s => if s = "#onetrust-accept-btn-handler" then btnV 1 "Accept" else btnHidden
  , main := ⟨.ok []⟩
  , framesR := .ok [] }

/-- A page with two equal-scored buttons (main document before frame) and
one higher-scored button, exercising sort stability. -/
def pageW5 : PageWorld :=
  { sel := selNone
  , main := ⟨.ok [btnV 1 "Accept now!", btnV 2 "Accept"]⟩
  , framesR := .ok [⟨.ok [btnV 3 "Accept now?"]⟩] }

/-- The reject world wrapping `pageW5`. -/
def rw5 : RejectWorld := ⟨pageW5, msW0⟩

/-- The candidates `collectCandidates` finds on `pageW5` under the
vocabulary `["accept"]`. -/
def cands5 : List Candidate :=
  [ ⟨4, btnV 1 "Accept now!", "Accept now!".data⟩
  , ⟨6, btnV 2 "Accept", "Accept".data⟩
  , ⟨4, btnV 3 "Accept now?", "Accept now?".data⟩ ]

/-- A multi-step world in which the three steps all find their control:
a settings button on the main page, a reject control answering the
`get_by_role` lookup in step 2, and no save control in step 3. -/
def msW7 : MsWorld :=
  { s1 := ⟨⟨.ok [btnV 1 "Settings"]⟩, .ok []⟩
  , s2 := ⟨⟨.ok [], fun kw => if kw = "reject all".data then btnV 2 "Reject all" else btnHidden, .ok []⟩, .ok []⟩
  , s3 := snap20 }

/-- A detect-accept world whose single visible button has the invalid text
`"1x"` (one alphabetic character). -/
def wC8 : DetectWorld := ⟨selNone, ⟨.ok [btnV 3 "1x"]⟩, .ok []⟩

/-- A document whose only control is a visible subscribe button sitting
outside every consent container (its `containers` list is empty), while
every container selector even reports a visible container. -/
def subMainW : SubCtx :=
  ⟨fun _ => true, [⟨AccRole.button, "Subscribe".data, true, []⟩]⟩
/-- C1: for every text and non-empty keyword vocabulary, the candidate scorer
returns exactly one value from {0, 1, 2, 2.5, 3, 3.5}, chosen by the first
matching rule in the order: "reject all purpose(s)" phrase → 3.5, exact short
keyword match → 3, exact long keyword match → 2.5, whole-word regex match on
text of length < 15 → 2, regex match on longer text → 1, otherwise 0. -/
theorem score_button_text_rules (kws : List (List Char)) (t : List Char)
    (hne : kws ≠ []) :
    score_as_rat kws t = claimScore kws t ∧
    score_as_rat kws t ∈ ([0, 1, 2, 2.5, 3, 3.5] : List ℚ) := by
  have hempty : kws.isEmpty = false := by
    cases kws with
    | nil => exact absurd rfl hne
    | cons a l => rfl
  unfold score_as_rat score_button_text claimScore
  rw [hempty]
  simp only [Bool.false_eq_true, if_false]
  split_ifs with h1 h2 h3 h4 h5 h6 h7 <;>
    (try simp_all [List.mem_cons]) <;> (try linarith) <;> norm_num

/-- Witness for C1 at a concrete input: vocabulary `["accept"]`, text
`" Accept "` (an exact short match, score 3). -/
theorem score_button_text_rules_witness :
    score_as_rat ["accept".data] " Accept ".data =
      claimScore ["accept".data] " Accept ".data ∧
    score_as_rat ["accept".data] " Accept ".data ∈ ([0, 1, 2, 2.5, 3, 3.5] : List ℚ) :=
  score_button_text_rules ["accept".data] " Accept ".data (by decide)

/-- C3 counterexample: constructing the handler with an *empty* accept
vocabulary does NOT fail — `__init__` only raises when both or neither
argument is supplied, so an empty list is accepted silently and produces an
empty keyword set. -/
theorem handler_init_empty_vocab_succeeds :
    handler_init (some []) none = .ok ⟨Mode.accept, []⟩ := by
  rfl

/-- C3 (amended): construction fails fast exactly when both or neither of
the accept/reject keyword arguments is provided; a provided empty list is
accepted silently, yielding an empty keyword set, and the scorer then
returns 0 for every text. -/
theorem handler_init_fails_iff_both_or_neither :
    (∀ a r : Option (List (List Char)),
        (handler_init a r).isOk = (a.isSome != r.isSome)) ∧
    (∀ t : List Char, score_as_rat [] t = 0) := by
  constructor
  · intro a r
    cases a <;> cases r <;> rfl
  · intro t
    unfold score_as_rat score_button_text
    norm_num

/-- Helper: a `Bool`-valued `Except.isOk` certifies an `.ok` value. -/
theorem exceptIsOk_exists {ε α : Type _} {e : Except ε α} (h : e.isOk = true) :
    ∃ a, e = Except.ok a := by
  cases e with
  | ok a => exact ⟨a, rfl⟩
  | error e => simp [Except.isOk, Except.toBool] at h

/-- C6: if step 1 of the multi-step reject flow locates no settings control
in the main document or any frame, the flow reports failure immediately,
attempting no click at all (steps 2 and 3 are never reached). -/
theorem multi_step_no_settings_no_clicks (h : CookieConsentHandler)
    (setting_kws save_kws : List (List Char)) (w : MsWorld)
    (hs : findSettingsAll setting_kws w.s1 = .ok none) :
    try_multi_step_reject h setting_kws save_kws w = (.ok false, []) := by
  unfold try_multi_step_reject
  rw [hs]

/-- Witness for C6: the empty multi-step world. -/
theorem multi_step_no_settings_no_clicks_witness :
    findSettingsAll ["settings".data] msW0.s1 = .ok none ∧
    try_multi_step_reject hRejAll ["settings".data] ["save".data] msW0 = (.ok false, []) :=
  ⟨rfl, multi_step_no_settings_no_clicks hRejAll ["settings".data] ["save".data] msW0 rfl⟩

/-- C7: once steps 1 and 2 of the multi-step reject flow succeed (a settings
control located and clicked, a reject control located and clicked), a step 3
that finds no save control anywhere still reports success with exactly those
two clicks; when a save control is located, the flow succeeds exactly when
that control can be read and clicked. -/
theorem multi_step_save_optional (h : CookieConsentHandler)
    (setting_kws save_kws : List (List Char)) (w : MsWorld) (sb rb : Btn)
    (h1 : findSettingsAll setting_kws w.s1 = .ok (some sb))
    (h2 : interactOk sb = true)
    (h3 : findRejectAll h.keywords_set w.s2 = some rb)
    (h4 : interactOk rb = true) :
    (findSaveAll save_kws w.s3 = none →
       try_multi_step_reject h setting_kws save_kws w =
         (.ok true, [ClickEv.settings sb.id, ClickEv.rejectInDialog rb.id])) ∧
    (∀ vb, findSaveAll save_kws w.s3 = some vb →
       (try_multi_step_reject h setting_kws save_kws w).1 = .ok (interactOk vb)) := by
  unfold interactOk at h2 h4
  rw [Bool.and_eq_true] at h2 h4
  obtain ⟨tb, htb⟩ := exceptIsOk_exists h2.1
  obtain ⟨cb, hcb⟩ := exceptIsOk_exists h2.2
  obtain ⟨tr, htr⟩ := exceptIsOk_exists h4.1
  obtain ⟨cr, hcr⟩ := exceptIsOk_exists h4.2
  constructor
  · intro hsave
    unfold try_multi_step_reject
    simp only [h1, htb, hcb, h3, htr, hcr, hsave]
  · intro vb hsave
    unfold try_multi_step_reject
    simp only [h1, htb, hcb, h3, htr, hcr, hsave]
    unfold interactOk
    cases hvt : vb.textR with
    | error e => simp [Except.isOk, Except.toBool]
    | ok t =>
      cases hvc : vb.clickR with
      | error e => simp [Except.isOk, Except.toBool]
      | ok u => simp [Except.isOk, Except.toBool]

/-- Witness for C7: the world `msW7`, in which steps 1 and 2 find their
controls and step 3 finds none. -/
theorem multi_step_save_optional_witness :
    try_multi_step_reject hRejAll ["settings".data] ["save".data] msW7 =
      (.ok true, [ClickEv.settings 1, ClickEv.rejectInDialog 2]) :=
  (multi_step_save_optional hRejAll ["settings".data] ["save".data] msW7
      (btnV 1 "Settings") (btnV 2 "Reject all")
      (by decide) (by decide) (by decide) (by decide)).1 (by decide)

/-- C10: `get_keywords` returns the empty list for every argument other than
`"accept"`; in particular the reject crawl's `get_keywords("reject")` is
empty, so the reject-mode handler of `run_reject` is always constructed with
an empty vocabulary, whatever the word file contains. -/
theorem get_keywords_reject_empty :
    (∀ (accept_words : List String) (words : List (List (String × String)))
        (s : String), s ≠ "accept" → get_keywords accept_words words s = []) ∧
    (∀ (accept_words : List String) (words : List (List (String × String))),
        run_reject_handler accept_words words = .ok ⟨Mode.reject, []⟩) := by
  constructor
  · intro aw w s hs
    unfold get_keywords
    rw [if_neg hs]
  · intro aw w
    unfold run_reject_handler get_keywords
    rw [if_neg (by decide : ("reject" : String) ≠ "accept")]
    rfl

/-- Witness for C10 at the concrete argument `"reject"`. -/
theorem get_keywords_reject_empty_witness :
    get_keywords [] [] "reject" = [] ∧ run_reject_handler [] [] = .ok ⟨Mode.reject, []⟩ :=
  ⟨get_keywords_reject_empty.1 [] [] "reject" (by decide),
   get_keywords_reject_empty.2 [] []⟩

/-- C8 counterexample: `_detect_accept_button` invokes the scorer on the
text `"1x"` (trimmed length 2 but only one alphabetic character, hence
invalid), because its keyword scan has no `_is_valid_button_text` check —
refuting "the scorer is never invoked on such a text by any surveying or
classifier operation". -/
theorem detect_accept_scores_invalid_text :
    detect_accept_scored_texts wC8 = ["1x".data] ∧
    is_valid_button_text "1x".data = false := by
  constructor
  · rfl
  · decide

/-- C8 (amended): in the element surveyor `_find_and_score_buttons`, every
text the scorer is invoked on has passed the validity check (trimmed length
≥ 2 and ≥ 2 alphabetic characters), and every candidate it produces carries
a valid text; the accept/essentials-only detectors, however, score visible
controls' texts without that check. -/
theorem surveyor_scores_only_valid_texts :
    (∀ (bs : List Btn) (t : List Char),
        t ∈ surveyScoredTexts bs → is_valid_button_text t = true) ∧
    (∀ (kws : List (List Char)) (c : Ctx) (cands : List Candidate)
        (cand : Candidate),
        find_and_score_buttons kws c = .ok cands → cand ∈ cands →
        is_valid_button_text cand.text = true) := by
  constructor
  · intro bs t ht
    unfold surveyScoredTexts at ht
    rw [List.mem_filterMap] at ht
    obtain ⟨b, _, hb⟩ := ht
    revert hb
    cases hv : b.visibleR with
    | error e => intro hb; cases hb
    | ok v =>
      cases v with
      | false => intro hb; cases hb
      | true =>
        cases htx : b.textR with
        | error e => intro hb; cases hb
        | ok s =>
          simp only []
          by_cases hval : is_valid_button_text (trimTxt s) = true
          · rw [if_pos hval]
            intro hb
            cases hb
            exact hval
          · rw [if_neg hval]
            intro hb
            cases hb
  · intro kws c cands cand hfc hmem
    unfold find_and_score_buttons at hfc
    revert hfc
    cases hall : c.allR with
    | error e =>
      intro hfc
      cases e
      · cases hfc
        cases hmem
      · cases hfc
      · cases hfc
    | ok bs =>
      intro hfc
      cases hfc
      rw [List.mem_filterMap] at hmem
      obtain ⟨b, _, hb⟩ := hmem
      revert hb
      unfold surveyButton
      cases hv : b.visibleR with
      | error e => intro hb; cases hb
      | ok v =>
        cases v with
        | false => intro hb; cases hb
        | true =>
          cases htx : b.textR with
          | error e => intro hb; cases hb
          | ok s =>
            simp only []
            by_cases hval : is_valid_button_text (trimTxt s) = true
            · rw [if_pos hval]
              by_cases hsc : 0 < score_button_text kws (trimTxt s)
              · rw [if_pos hsc]
                intro hb
                cases hb
                exact hval
              · rw [if_neg hsc]
                intro hb
                cases hb
            · rw [if_neg hval]
              intro hb
              cases hb

/-- Witness for C8's amended theorem: the text `"Accept"` surveyed from a
single visible button is valid. -/
theorem surveyor_scores_only_valid_texts_witness :
    is_valid_button_text "Accept".data = true :=
  surveyor_scores_only_valid_texts.1 [btnV 1 "Accept"] "Accept".data (by decide)

/-- Helper: when every control of a context sits outside every consent
container, no container can report a subscribe hit. -/
theorem containerSubscribeHit_no_containers (ctx : SubCtx) (sel : String)
    (h : ∀ c ∈ ctx.controls, c.containers = []) :
    containerSubscribeHit ctx sel = false := by
  unfold containerSubscribeHit
  rw [List.any_eq_false]
  intro kw hkw
  have hfilt : ∀ r : AccRole,
      ctx.controls.filter (fun c => roleNameMatches c sel r kw) = [] := by
    intro r
    rw [List.filter_eq_nil_iff]
    intro c hc
    simp [roleNameMatches, h c hc]
  rw [hfilt AccRole.button, hfilt AccRole.link]
  simp

/-- Helper: a subscribe hit inside a container surfaces a control that the
container encloses. -/
theorem containerSubscribeHit_mem (ctx : SubCtx) (sel : String)
    (h : containerSubscribeHit ctx sel = true) :
    ∃ c ∈ ctx.controls, c.containers.contains sel = true := by
  unfold containerSubscribeHit at h
  rw [List.any_eq_true] at h
  obtain ⟨kw, hkw, hor⟩ := h
  rw [Bool.or_eq_true] at hor
  have main : ∀ r : AccRole,
      (match ctx.controls.filter (fun c => roleNameMatches c sel r kw) with
       | [] => false
       | c :: _ => c.visible) = true →
      ∃ c ∈ ctx.controls, c.containers.contains sel = true := by
    intro r hr
    revert hr
    cases hfe : ctx.controls.filter (fun c => roleNameMatches c sel r kw) with
    | nil => intro hr; cases hr
    | cons c rest =>
      intro hr
      have hcmem : c ∈ ctx.controls.filter (fun c => roleNameMatches c sel r kw) := by
        rw [hfe]; exact List.mem_cons_self c rest
      rw [List.mem_filter] at hcmem
      refine ⟨c, hcmem.1, ?_⟩
      have := hcmem.2
      unfold roleNameMatches at this
      rw [Bool.and_eq_true, Bool.and_eq_true] at this
      exact this.1.1
  cases hor with
  | inl hb => exact main AccRole.button hb
  | inr hl => exact main AccRole.link hl

/-- C9: `detect_subscribe_button` only ever answers true on account of a
control enclosed by a visible consent container; when every subscribe-style
control on the page (main document and frames) sits outside every consent
container, it answers false even if those controls are visible and their
names match the subscribe vocabulary. -/
theorem subscribe_requires_consent_container :
    (∀ (main : SubCtx) (frames : List SubCtx),
        (∀ c ∈ main.controls, c.containers = []) →
        (∀ f ∈ frames, ∀ c ∈ f.controls, c.containers = []) →
        detect_subscribe_button main frames = false) ∧
    (∀ (main : SubCtx) (frames : List SubCtx),
        detect_subscribe_button main frames = true →
        ∃ ctx sel c, (ctx = main ∨ ctx ∈ frames) ∧
          sel ∈ consentContainerSelectors ∧ ctx.containerVisible sel = true ∧
          c ∈ ctx.controls ∧ c.containers.contains sel = true) := by
  constructor
  · intro main frames hm hf
    unfold detect_subscribe_button
    rw [Bool.or_eq_false_iff]
    constructor
    · rw [List.any_eq_false]
      intro sel hsel
      rw [containerSubscribeHit_no_containers main sel hm]
      simp
    · rw [List.any_eq_false]
      intro f hfmem
      simp only [Bool.not_eq_true]
      rw [List.any_eq_false]
      intro sel hsel
      rw [containerSubscribeHit_no_containers f sel (hf f hfmem)]
      simp
  · intro main frames hdet
    unfold detect_subscribe_button at hdet
    rw [Bool.or_eq_true] at hdet
    cases hdet with
    | inl hmain =>
      rw [List.any_eq_true] at hmain
      obtain ⟨sel, hsel, hhit⟩ := hmain
      rw [Bool.and_eq_true] at hhit
      obtain ⟨c, hcmem, hcont⟩ := containerSubscribeHit_mem main sel hhit.2
      exact ⟨main, sel, c, Or.inl rfl, hsel, hhit.1, hcmem, hcont⟩
    | inr hfr =>
      rw [List.any_eq_true] at hfr
      obtain ⟨f, hfmem, hfany⟩ := hfr
      rw [List.any_eq_true] at hfany
      obtain ⟨sel, hsel, hhit⟩ := hfany
      rw [Bool.and_eq_true] at hhit
      obtain ⟨c, hcmem, hcont⟩ := containerSubscribeHit_mem f sel hhit.2
      exact ⟨f, sel, c, Or.inr hfmem, hsel, hhit.1, hcmem, hcont⟩

/-- Witness for C9: a visible button named "Subscribe" outside every consent
container (all of whose selectors even show a visible container) is not
reported. -/
theorem subscribe_requires_consent_container_witness :
    detect_subscribe_button subMainW [] = false :=
  subscribe_requires_consent_container.1 subMainW [] (by decide) (by decide)

/-- Helper: membership in an `insertDesc` result. -/
theorem insertDesc_mem {α : Type _} (sc : α → Nat) (x a : α) (l : List α) :
    a ∈ insertDesc sc x l ↔ a = x ∨ a ∈ l := by
  induction l with
  | nil => simp [insertDesc]
  | cons y ys ih =>
    unfold insertDesc
    by_cases hxy : sc x ≤ sc y
    · rw [if_pos hxy]
      simp only [List.mem_cons, ih]
      tauto
    · rw [if_neg hxy]
      simp [List.mem_cons]

/-- Helper: `insertDesc` preserves the descending-pairwise invariant. -/
theorem insertDesc_pairwise {α : Type _} (sc : α → Nat) (x : α) (l : List α)
    (h : List.Pairwise (fun a b => sc b ≤ sc a) l) :
    List.Pairwise (fun a b => sc b ≤ sc a) (insertDesc sc x l) := by
  induction l with
  | nil => simp [insertDesc]
  | cons y ys ih =>
    rw [List.pairwise_cons] at h
    unfold insertDesc
    by_cases hxy : sc x ≤ sc y
    · rw [if_pos hxy, List.pairwise_cons]
      constructor
      · intro b hb
        rw [insertDesc_mem] at hb
        cases hb with
        | inl hbx => subst hbx; exact hxy
        | inr hbm => exact h.1 b hbm
      · exact ih h.2
    · rw [if_neg hxy, List.pairwise_cons]
      have hyx : sc y ≤ sc x := Nat.le_of_lt (Nat.lt_of_not_le hxy)
      constructor
      · intro b hb
        rw [List.mem_cons] at hb
        cases hb with
        | inl hby => subst hby; exact hyx
        | inr hbm => exact Nat.le_trans (h.1 b hbm) hyx
      · rw [List.pairwise_cons]
        exact h

/-- Helper: the insertion fold preserves the descending-pairwise invariant. -/
theorem sortDesc_foldl_pairwise {α : Type _} (sc : α → Nat) (l : List α)
    (acc : List α) (hacc : List.Pairwise (fun a b => sc b ≤ sc a) acc) :
    List.Pairwise (fun a b => sc b ≤ sc a)
      (l.foldl (fun acc x => insertDesc sc x acc) acc) := by
  induction l generalizing acc with
  | nil => simpa using hacc
  | cons x xs ih => exact ih _ (insertDesc_pairwise sc x acc hacc)

/-- Helper: the stable sort's output is sorted descending by score. -/
theorem sortByScoreDesc_pairwise {α : Type _} (sc : α → Nat) (l : List α) :
    List.Pairwise (fun a b => sc b ≤ sc a) (sortByScoreDesc sc l) :=
  sortDesc_foldl_pairwise sc l [] (by simp)

/-- Helper: inserting into a sorted accumulator appends the new element
after all previously inserted elements of its own score. -/
theorem insertDesc_filter {α : Type _} (sc : α → Nat) (q : Nat) (x : α)
    (l : List α) (hl : List.Pairwise (fun a b => sc b ≤ sc a) l) :
    (insertDesc sc x l).filter (fun a => sc a == q) =
      if sc x = q then l.filter (fun a => sc a == q) ++ [x]
      else l.filter (fun a => sc a == q) := by
  induction l with
  | nil =>
    by_cases hx : sc x = q
    · rw [if_pos hx]
      simp [insertDesc, List.filter_cons, hx]
    · rw [if_neg hx]
      simp [insertDesc, List.filter_cons, hx]
  | cons y ys ih =>
    rw [List.pairwise_cons] at hl
    unfold insertDesc
    by_cases hxy : sc x ≤ sc y
    · rw [if_pos hxy]
      by_cases hy : sc y = q <;> by_cases hx : sc x = q <;>
        simp [List.filter_cons, hy, hx, ih hl.2]
    · rw [if_neg hxy]
      have hyx : sc y < sc x := Nat.lt_of_not_le hxy
      by_cases hx : sc x = q
      · rw [if_pos hx]
        have hnil : (y :: ys).filter (fun a => sc a == q) = [] := by
          rw [List.filter_eq_nil_iff]
          intro b hb
          have hble : sc b ≤ sc y := by
            rw [List.mem_cons] at hb
            cases hb with
            | inl hby => subst hby; exact Nat.le_refl _
            | inr hbm => exact hl.1 b hbm
          have hbne : sc b ≠ q := by
            rw [← hx]
            exact Nat.ne_of_lt (Nat.lt_of_le_of_lt hble hyx)
          simp [hbne]
        rw [List.filter_cons, hnil]
        simp [hx]
      · rw [if_neg hx]
        rw [List.filter_cons]
        simp [hx]

/-- Helper: filtering one score class out of the insertion fold preserves
the accumulated-then-remaining order. -/
theorem sortDesc_foldl_filter {α : Type _} (sc : α → Nat) (q : Nat)
    (l : List α) (acc : List α)
    (hacc : List.Pairwise (fun a b => sc b ≤ sc a) acc) :
    (l.foldl (fun acc x => insertDesc sc x acc) acc).filter (fun a => sc a == q) =
      acc.filter (fun a => sc a == q) ++ l.filter (fun a => sc a == q) := by
  induction l generalizing acc with
  | nil => simp
  | cons x xs ih =>
    rw [List.foldl_cons,
        ih (insertDesc sc x acc) (insertDesc_pairwise sc x acc hacc),
        insertDesc_filter sc q x acc hacc]
    by_cases hx : sc x = q <;> simp [hx, List.filter_cons]

/-- Helper: the stable sort preserves each score class in survey order. -/
theorem sortByScoreDesc_filter {α : Type _} (sc : α → Nat) (q : Nat) (l : List α) :
    (sortByScoreDesc sc l).filter (fun a => sc a == q) =
      l.filter (fun a => sc a == q) := by
  unfold sortByScoreDesc
  rw [sortDesc_foldl_filter sc q l [] (by simp)]
  simp

/-- C5: the heuristic search's candidate list (main document first, then
each frame in order) is ranked by a stable descending sort — the output is
sorted descending by score and every score class keeps its survey order —
and the head of the sorted list is the candidate whose click is attempted:
in `accept_cookies` (once the known selectors miss) the heuristic click is
exactly on that head, and in `reject_cookies` the head's click is the first
click attempted. -/
theorem heuristic_ranking_stable (h : CookieConsentHandler) (rw : RejectWorld)
    (setting_kws save_kws : List (List Char)) (cands : List Candidate)
    (hc : collectCandidates h.keywords_set rw.page.main rw.page.framesR = .ok cands) :
    List.Pairwise (fun a b => b.score ≤ a.score)
      (sortByScoreDesc Candidate.score cands) ∧
    (∀ q : Nat, (sortByScoreDesc Candidate.score cands).filter (fun c => c.score == q) =
        cands.filter (fun c => c.score == q)) ∧
    (∀ best rest, sortByScoreDesc Candidate.score cands = best :: rest →
        ((try_common_selectors rw.page.sel (commonSelectors h.mode)).1 = false →
           (accept_cookies h rw.page).2 =
             (try_common_selectors rw.page.sel (commonSelectors h.mode)).2
               ++ [ClickEv.heuristic best.btn.id]) ∧
        (reject_cookies h setting_kws save_kws rw).2.head? =
          some (ClickEv.heuristic best.btn.id)) := by
  refine ⟨sortByScoreDesc_pairwise Candidate.score cands,
          fun q => sortByScoreDesc_filter Candidate.score q cands, ?_⟩
  intro best rest hsort
  constructor
  · intro hcf
    simp only [accept_cookies, hcf, Bool.false_eq_true, if_false, hc, hsort]
    cases hck : best.btn.clickR <;> simp
  · simp only [reject_cookies, hc, hsort]
    cases hck : best.btn.clickR with
    | ok u => simp
    | error e =>
      simp only []
      by_cases hguard : (!setting_kws.isEmpty && !save_kws.isEmpty) = true
      · rcases hms : try_multi_step_reject h setting_kws save_kws rw.ms with ⟨r, t2⟩
        simp only [hguard, if_true, hms]
        rcases r with e2 | b
        · simp
        · cases b <;> simp
      · simp [hguard]

/-- Witness for C5 on `pageW5`: two equal-scored candidates keep survey
order (main document before frame) under the sort, and the top-scored
candidate (handle 2) is the one clicked. -/
theorem heuristic_ranking_stable_witness :
    List.Pairwise (fun a b : Candidate => b.score ≤ a.score)
      (sortByScoreDesc Candidate.score cands5) ∧
    (sortByScoreDesc Candidate.score cands5).filter (fun c => c.score == 4) =
      cands5.filter (fun c => c.score == 4) ∧
    (accept_cookies hAcc rw5.page).2 = [ClickEv.heuristic 2] := by
  have H := heuristic_ranking_stable hAcc rw5 [] [] cands5 (by decide)
  refine ⟨H.1, H.2.1 4, ?_⟩
  have h3 := (H.2.2 ⟨6, btnV 2 "Accept", "Accept".data⟩
      [⟨4, btnV 1 "Accept now!", "Accept now!".data⟩,
       ⟨4, btnV 3 "Accept now?", "Accept now?".data⟩]
      (by decide)).1 (by decide)
  have htc : (try_common_selectors rw5.page.sel (commonSelectors hAcc.mode)).2 = [] := by
    decide
  rw [h3, htc]
  rfl

/-- Helper: a relation holding across all pairs of a list is pairwise. -/
theorem pairwise_of_all {α : Type _} {R : α → α → Prop} {l : List α}
    (h : ∀ a ∈ l, ∀ b ∈ l, R a b) : List.Pairwise R l := by
  induction l with
  | nil => exact List.Pairwise.nil
  | cons x xs ih =>
    rw [List.pairwise_cons]
    refine ⟨fun b hb => h x (List.mem_cons_self x xs) b (List.mem_cons_of_mem x hb),
            ih fun a ha b hb =>
              h a (List.mem_cons_of_mem x ha) b (List.mem_cons_of_mem x hb)⟩

/-- Helper: the known-selector loop only ever clicks known selectors. -/
theorem try_common_trace_known (sel : String → Btn) (sels : List String) :
    ∀ ev ∈ (try_common_selectors sel sels).2, ∃ s, ev = ClickEv.known s := by
  induction sels with
  | nil => intro ev hev; cases hev
  | cons s rest ih =>
    intro ev hev
    unfold try_common_selectors at hev
    split at hev
    · split at hev
      · rw [List.mem_singleton] at hev
        exact ⟨s, hev⟩
      · simp only [] at hev
        rw [List.mem_cons] at hev
        cases hev with
        | inl hes => exact ⟨s, hes⟩
        | inr hem => exact ih ev hem
    · exact ih ev hev

/-- Helper: the multi-step flow only clicks settings/reject/save controls
(all of reject-strategy rank 1). -/
theorem multi_step_trace_rank (h : CookieConsentHandler)
    (setting_kws save_kws : List (List Char)) (w : MsWorld) :
    ∀ ev ∈ (try_multi_step_reject h setting_kws save_kws w).2,
      rejectStrategyRank ev = 1 := by
  intro ev hev
  unfold try_multi_step_reject at hev
  split at hev
  all_goals try split at hev
  all_goals try split at hev
  all_goals try split at hev
  all_goals try split at hev
  all_goals try split at hev
  all_goals try split at hev
  all_goals try split at hev
  all_goals try split at hev
  all_goals try simp_all [rejectStrategyRank]
  all_goals (rcases hev with rfl | rfl | rfl) <;> rfl

/-- Helper: the `accept_cookies` trace is the known-selector trace, possibly
followed by a single heuristic click. -/
theorem accept_trace_cases (h : CookieConsentHandler) (w : PageWorld) :
    (accept_cookies h w).2 = (try_common_selectors w.sel (commonSelectors h.mode)).2 ∨
    ∃ i, (accept_cookies h w).2 =
      (try_common_selectors w.sel (commonSelectors h.mode)).2 ++ [ClickEv.heuristic i] := by
  simp only [accept_cookies]
  split
  · left; rfl
  · split
    · left; rfl
    · split
      · left; rfl
      · split
        · right; exact ⟨_, rfl⟩
        · right; exact ⟨_, rfl⟩

/-- Helper: the `reject_cookies` trace splits into an optional heuristic
click (rank 0), then multi-step clicks (rank 1), then known-selector clicks
(rank 2). -/
theorem reject_trace_cases (h : CookieConsentHandler)
    (setting_kws save_kws : List (List Char)) (rw : RejectWorld) :
    ∃ l1 l2 l3, (reject_cookies h setting_kws save_kws rw).2 = l1 ++ l2 ++ l3 ∧
      (∀ ev ∈ l1, rejectStrategyRank ev = 0) ∧
      (∀ ev ∈ l2, rejectStrategyRank ev = 1) ∧
      (∀ ev ∈ l3, rejectStrategyRank ev = 2) := by
  have hktc : ∀ ev ∈ (try_common_selectors rw.page.sel (commonSelectors h.mode)).2,
      rejectStrategyRank ev = 2 := by
    intro ev hev
    obtain ⟨s, rfl⟩ := try_common_trace_known _ _ ev hev
    rfl
  have hms := multi_step_trace_rank h setting_kws save_kws rw.ms
  rcases hcol : collectCandidates h.keywords_set rw.page.main rw.page.framesR with e | cands
  · exact ⟨[], [], [], by simp [reject_cookies, hcol], by simp, by simp, by simp⟩
  · rcases hsort : sortByScoreDesc Candidate.score cands with _ | ⟨best, tail⟩
    · by_cases hguard : (!setting_kws.isEmpty && !save_kws.isEmpty) = true
      · rcases hmsr : try_multi_step_reject h setting_kws save_kws rw.ms with ⟨r, t2⟩
        have hms2 : ∀ ev ∈ t2, rejectStrategyRank ev = 1 := by
          intro ev hev2
          apply hms
          rw [hmsr]
          exact hev2
        rcases r with e2 | b
        · refine ⟨[], t2, [], ?_, by simp, hms2, by simp⟩
          simp [reject_cookies, hcol, hsort, hguard, hmsr]
        · cases b
          · refine ⟨[], t2,
              (try_common_selectors rw.page.sel (commonSelectors h.mode)).2,
              ?_, by simp, hms2, hktc⟩
            simp [reject_cookies, hcol, hsort, hguard, hmsr]
          · refine ⟨[], t2, [], ?_, by simp, hms2, by simp⟩
            simp [reject_cookies, hcol, hsort, hguard, hmsr]
      · refine ⟨[], [],
          (try_common_selectors rw.page.sel (commonSelectors h.mode)).2,
          ?_, by simp, by simp, hktc⟩
        simp [reject_cookies, hcol, hsort, hguard]
    · rcases hck : best.btn.clickR with e3 | u
      · by_cases hguard : (!setting_kws.isEmpty && !save_kws.isEmpty) = true
        · rcases hmsr : try_multi_step_reject h setting_kws save_kws rw.ms with ⟨r, t2⟩
          have hms2 : ∀ ev ∈ t2, rejectStrategyRank ev = 1 := by
            intro ev hev2
            apply hms
            rw [hmsr]
            exact hev2
          rcases r with e2 | b
          · refine ⟨[ClickEv.heuristic best.btn.id], t2, [], ?_,
              by simp [rejectStrategyRank], hms2, by simp⟩
            simp [reject_cookies, hcol, hsort, hck, hguard, hmsr]
          · cases b
            · refine ⟨[ClickEv.heuristic best.btn.id], t2,
                (try_common_selectors rw.page.sel (commonSelectors h.mode)).2,
                ?_, by simp [rejectStrategyRank], hms2, hktc⟩
              simp [reject_cookies, hcol, hsort, hck, hguard, hmsr]
            · refine ⟨[ClickEv.heuristic best.btn.id], t2, [], ?_,
                by simp [rejectStrategyRank], hms2, by simp⟩
              simp [reject_cookies, hcol, hsort, hck, hguard, hmsr]
        · refine ⟨[ClickEv.heuristic best.btn.id], [],
            (try_common_selectors rw.page.sel (commonSelectors h.mode)).2,
            ?_, by simp [rejectStrategyRank], by simp, hktc⟩
          simp [reject_cookies, hcol, hsort, hck, hguard]
      · exact ⟨[ClickEv.heuristic best.btn.id], [], [],
          by simp [reject_cookies, hcol, hsort, hck],
          by simp [rejectStrategyRank], by simp, by simp⟩

/-- C2 counterexample: on a reject-mode page where the OneTrust reject
known selector is visible and clickable, `reject_cookies` nevertheless
clicks the heuristic candidate (handle 5) — it never probes the known
selector first, refuting "for every mode the protocol first probes the
known-selector table". -/
theorem reject_ignores_visible_known_selector :
    (wC2.page.sel "#onetrust-reject-all-handler").visibleR = .ok true ∧
    (wC2.page.sel "#onetrust-reject-all-handler").clickR = .ok () ∧
    reject_cookies hRejAll [] [] wC2 = (.ok true, [ClickEv.heuristic 5]) :=
  ⟨by decide, by decide, by decide⟩

/-- C2 (amended): the strategy order is mode-dependent.  `accept_cookies`
probes the known-selector table first and only then clicks a heuristic
candidate (its click trace is ordered by accept-strategy rank), and a
successful known-selector click terminates it with success immediately;
`reject_cookies` runs the strategies in the opposite order — heuristic
click first, then the multi-step clicks, and the known-selector table last
(its trace is ordered by reject-strategy rank). -/
theorem strategy_order (h : CookieConsentHandler) (w : PageWorld)
    (rw : RejectWorld) (setting_kws save_kws : List (List Char)) :
    List.Pairwise (fun a b => acceptStrategyRank a ≤ acceptStrategyRank b)
      (accept_cookies h w).2 ∧
    List.Pairwise (fun a b => rejectStrategyRank a ≤ rejectStrategyRank b)
      (reject_cookies h setting_kws save_kws rw).2 ∧
    ((try_common_selectors w.sel (commonSelectors h.mode)).1 = true →
      accept_cookies h w = (.ok true, (try_common_selectors w.sel (commonSelectors h.mode)).2)) := by
  have hktc : ∀ ev ∈ (try_common_selectors w.sel (commonSelectors h.mode)).2,
      acceptStrategyRank ev = 0 := by
    intro ev hev
    obtain ⟨s, rfl⟩ := try_common_trace_known _ _ ev hev
    rfl
  refine ⟨?_, ?_, ?_⟩
  · rcases accept_trace_cases h w with hcase | ⟨i, hcase⟩ <;> rw [hcase]
    · exact pairwise_of_all fun a ha b hb => by rw [hktc a ha, hktc b hb]
    · rw [List.pairwise_append]
      refine ⟨pairwise_of_all fun a ha b hb => by rw [hktc a ha, hktc b hb],
              List.pairwise_singleton _ _, ?_⟩
      intro a ha b hb
      rw [List.mem_singleton] at hb
      subst hb
      rw [hktc a ha]
      exact Nat.zero_le _
  · obtain ⟨l1, l2, l3, hdec, h1, h2, h3⟩ :=
      reject_trace_cases h setting_kws save_kws rw
    rw [hdec, List.pairwise_append, List.pairwise_append]
    refine ⟨⟨pairwise_of_all fun a ha b hb => by rw [h1 a ha, h1 b hb],
             pairwise_of_all fun a ha b hb => by rw [h2 a ha, h2 b hb], ?_⟩,
            pairwise_of_all fun a ha b hb => by rw [h3 a ha, h3 b hb], ?_⟩
    · intro a ha b hb
      rw [h1 a ha, h2 b hb]
      exact Nat.le_of_lt Nat.zero_lt_one
    · intro a ha b hb
      rw [List.mem_append] at ha
      rw [h3 b hb]
      cases ha with
      | inl ha1 => rw [h1 a ha1]; exact Nat.zero_le 2
      | inr ha2 => rw [h2 a ha2]; exact Nat.le_of_lt Nat.one_lt_two
  · intro htc
    simp [accept_cookies, htc]

/-- Witness for C2's amended theorem: on `wAccSel` the accept known
selector hits, so the whole accept flow terminates with that single
known-selector click. -/
theorem strategy_order_witness :
    (try_common_selectors wAccSel.sel (commonSelectors hAcc.mode)).1 = true ∧
    accept_cookies hAcc wAccSel =
      (.ok true, [ClickEv.known "#onetrust-accept-btn-handler"]) := by
  have h1 : (try_common_selectors wAccSel.sel (commonSelectors hAcc.mode)).1 = true := by
    decide
  refine ⟨h1, ?_⟩
  rw [(strategy_order hAcc wAccSel rejectW0 [] []).2.2 h1]
  decide

/-- Helper: under normal operation the main-document survey returns a
candidate list. -/
theorem find_and_score_buttons_isOk (kws : List (List Char)) (c : Ctx)
    (h : ctxTimeoutOnly c) :
    ∃ cs, find_and_score_buttons kws c = .ok cs := by
  unfold find_and_score_buttons
  cases hall : c.allR with
  | ok bs => exact ⟨_, rfl⟩
  | error e =>
    have := h e hall
    subst this
    exact ⟨[], rfl⟩

/-- Helper: under normal operation the candidate collection returns a
list. -/
theorem collectCandidates_isOk (kws : List (List Char)) (main : Ctx)
    (framesR : Except InteractionErr (List Ctx)) (h : ctxTimeoutOnly main) :
    ∃ cs, collectCandidates kws main framesR = .ok cs := by
  obtain ⟨cs, hcs⟩ := find_and_score_buttons_isOk kws main h
  unfold collectCandidates
  rw [hcs]
  exact ⟨_, rfl⟩

/-- Helper: under normal operation the per-context settings search returns
a result. -/
theorem find_settings_button_isOk (kws : List (List Char)) (c : Ctx)
    (h : ctxTimeoutOnly c) :
    ∃ r, find_settings_button kws c = .ok r := by
  unfold find_settings_button
  cases hall : c.allR with
  | ok bs => exact ⟨_, rfl⟩
  | error e =>
    have := h e hall
    subst this
    exact ⟨none, rfl⟩

/-- Helper: under normal operation the settings search returns a result. -/
theorem findSettingsAll_isOk (kws : List (List Char)) (s : Snap1)
    (h : ctxTimeoutOnly s.main) :
    ∃ r, findSettingsAll kws s = .ok r := by
  obtain ⟨r, hr⟩ := find_settings_button_isOk kws s.main h
  unfold findSettingsAll
  rw [hr]
  rcases r with _ | b
  · cases s.framesR with
    | error e => exact ⟨none, rfl⟩
    | ok fs => exact ⟨_, rfl⟩
  · exact ⟨some b, rfl⟩

/-- Helper: the multi-step flow returns a boolean (never an error) under
normal operation. -/
theorem try_multi_step_reject_isOk (h : CookieConsentHandler)
    (setting_kws save_kws : List (List Char)) (w : MsWorld)
    (hn : ctxTimeoutOnly w.s1.main) :
    (try_multi_step_reject h setting_kws save_kws w).1.isOk = true := by
  obtain ⟨r, hr⟩ := findSettingsAll_isOk setting_kws w.s1 hn
  unfold try_multi_step_reject
  rcases r with _ | sb
  · simp only [hr]
    rfl
  · cases h1 : sb.textR with
    | error e => simp only [hr, h1]; rfl
    | ok t =>
      cases h2 : sb.clickR with
      | error e => simp only [hr, h1, h2]; rfl
      | ok u =>
        cases h3 : findRejectAll h.keywords_set w.s2 with
        | none => simp only [hr, h1, h2, h3]; rfl
        | some rb =>
          cases h4 : rb.textR with
          | error e => simp only [hr, h1, h2, h3, h4]; rfl
          | ok t2 =>
            cases h5 : rb.clickR with
            | error e => simp only [hr, h1, h2, h3, h4, h5]; rfl
            | ok u2 =>
              cases h6 : findSaveAll save_kws w.s3 with
              | none => simp only [hr, h1, h2, h3, h4, h5, h6]; rfl
              | some vb =>
                cases h7 : vb.textR with
                | error e => simp only [hr, h1, h2, h3, h4, h5, h6, h7]; rfl
                | ok t3 =>
                  cases h8 : vb.clickR with
                  | ok u3 => simp only [hr, h1, h2, h3, h4, h5, h6, h7, h8]; rfl
                  | error e => simp only [hr, h1, h2, h3, h4, h5, h6, h7, h8]; rfl

/-- C4: under normal operation — per-element and per-selector interaction
failures (timeouts, stale elements, torn-down frames) may strike anywhere,
and the main-document enumerations fail at worst with a timeout — neither
`accept_cookies` nor `reject_cookies` lets an exception escape: both always
return a boolean (`.ok`), reporting total failure as `false`. -/
theorem resolution_no_exception_escapes (h : CookieConsentHandler)
    (w : PageWorld) (rw : RejectWorld) (setting_kws save_kws : List (List Char))
    (hw : ctxTimeoutOnly w.main) (hr1 : ctxTimeoutOnly rw.page.main)
    (hr2 : ctxTimeoutOnly rw.ms.s1.main) :
    (accept_cookies h w).1.isOk = true ∧
    (reject_cookies h setting_kws save_kws rw).1.isOk = true := by
  constructor
  · obtain ⟨cs, hcs⟩ := collectCandidates_isOk h.keywords_set w.main w.framesR hw
    by_cases htc : (try_common_selectors w.sel (commonSelectors h.mode)).1 = true
    · simp [accept_cookies, htc, Except.isOk, Except.toBool]
    · cases hsort : sortByScoreDesc Candidate.score cs with
      | nil => simp [accept_cookies, htc, hcs, hsort, Except.isOk, Except.toBool]
      | cons best rest =>
        cases hck : best.btn.clickR with
        | ok u => simp [accept_cookies, htc, hcs, hsort, hck, Except.isOk, Except.toBool]
        | error e => simp [accept_cookies, htc, hcs, hsort, hck, Except.isOk, Except.toBool]
  · obtain ⟨cs, hcs⟩ :=
      collectCandidates_isOk h.keywords_set rw.page.main rw.page.framesR hr1
    have hmsOk := try_multi_step_reject_isOk h setting_kws save_kws rw.ms hr2
    rcases hms : try_multi_step_reject h setting_kws save_kws rw.ms with ⟨r, t2⟩
    rw [hms] at hmsOk
    cases hsort : sortByScoreDesc Candidate.score cs with
    | nil =>
      by_cases hguard : (!setting_kws.isEmpty && !save_kws.isEmpty) = true
      · rcases r with e2 | b
        · simp [Except.isOk, Except.toBool] at hmsOk
        · cases b <;>
            simp [reject_cookies, hcs, hsort, hguard, hms, Except.isOk, Except.toBool]
      · simp [reject_cookies, hcs, hsort, hguard, Except.isOk, Except.toBool]
    | cons best rest =>
      cases hck : best.btn.clickR with
      | ok u => simp [reject_cookies, hcs, hsort, hck, Except.isOk, Except.toBool]
      | error e =>
        by_cases hguard : (!setting_kws.isEmpty && !save_kws.isEmpty) = true
        · rcases r with e2 | b
          · simp [Except.isOk, Except.toBool] at hmsOk
          · cases b <;>
              simp [reject_cookies, hcs, hsort, hck, hguard, hms, Except.isOk, Except.toBool]
        · simp [reject_cookies, hcs, hsort, hck, hguard, Except.isOk, Except.toBool]

/-- Witness for C4 on the empty page and reject worlds. -/
theorem resolution_no_exception_escapes_witness :
    (accept_cookies hAcc pageW0).1.isOk = true ∧
    (reject_cookies hRejAll ["settings".data] ["save".data] rejectW0).1.isOk = true :=
  resolution_no_exception_escapes hAcc pageW0 rejectW0 ["settings".data] ["save".data]
    (fun e he => by cases he) (fun e he => by cases he) (fun e he => by cases he)
